import Mathlib

/-!
# Tune-Central: verified model of the recommendation service

Shallow embedding of the two source files of the repository:

* `src/ML Model/app.py` — the Flask service: startup load of the catalog
  (`api_data.csv`) and similarity matrix (`similarity_matrix.npy`), the
  similarity-based `get_recommendations`, the mood endpoint `recommend_mood`
  (SQL threshold filters over the `songs` table), and the `get_trending`
  aggregate endpoint.
* `src/ML Model/fix_database.py` — the offline catalog build: deduplication on
  `(name, artists)`, the popularity threshold, derived `title` column, and the
  write of the `songs` table.

Floating-point feature values and similarity scores are modelled as rationals;
pandas row indices as natural numbers; Python's fallible paths as
`Except String` / `Option` with the exact error strings of the source.
-/

namespace TuneCentral

/-- A row of the served catalog (`api_data.csv` / the `songs` table): identity
fields, the audio features read by the mood filters, and `popularity`. -/
structure Song where
  name : String
  artists : String
  title : String
  valence : ℚ
  energy : ℚ
  danceability : ℚ
  tempo : ℚ
  speechiness : ℚ
  liveness : ℚ
  popularity : Int
  deriving DecidableEq

/-- `pd.Series(df_scaled.index, index=df_scaled['title'])` lookup, app.py
line 35: position of the first catalog row whose `title` equals the query
(`none` models the `KeyError` branch). -/
def titleIndex : List String → String → Option Nat
  | [], _ => none
  | u :: us, t => if u = t then some 0 else (titleIndex us t).map (· + 1)

/-- Python `enumerate` starting at `i`. -/
def enumFrom (i : Nat) : List ℚ → List (Nat × ℚ)
  | [] => []
  | x :: xs => (i, x) :: enumFrom (i + 1) xs

/-- `list(enumerate(similarity_matrix[idx]))`, app.py line 41. -/
def enumerate (l : List ℚ) : List (Nat × ℚ) := enumFrom 0 l

/-- One insertion step of a stable descending sort on the second component:
an element keeps moving right past strictly greater keys and stops before the
first key it is `≥`, so earlier input elements stay ahead of equal keys. -/
def insertDesc (p : Nat × ℚ) : List (Nat × ℚ) → List (Nat × ℚ)
  | [] => [p]
  | q :: qs => if p.2 < q.2 then q :: insertDesc p qs else p :: q :: qs

/-- `sorted(sim_scores, key=lambda x: x[1], reverse=True)`, app.py line 44.
Python's sort is stable; for keys drawn with `enumerate` the output is the
unique reordering that is non-increasing in score with ties in position
order, which this insertion sort computes. -/
def sortDesc : List (Nat × ℚ) → List (Nat × ℚ)
  | [] => []
  | p :: ps => insertDesc p (sortDesc ps)

/-- The ranked `(position, score)` list app.py builds for row `idx`
(lines 41–44): enumerate the similarity row, sort by score descending. -/
def rankedScores (matrix : List (List ℚ)) (idx : Nat) : List (Nat × ℚ) :=
  sortDesc (enumerate (matrix.getD idx []))

/-- Python slice `l[1:e]` (`sim_scores[1:top_n+1]` has `e = top_n + 1`):
a negative stop counts from the end, a stop beyond the length is clamped. -/
def pySlice1 {α : Type} (l : List α) (e : Int) : List α :=
  let m : Int := l.length
  let stop : Int := if e < 0 then max 0 (m + e) else min e m
  (l.take stop.toNat).drop 1

/-- The error string returned when the song title is not in the index,
app.py line 38. -/
def notFoundMessage (t : String) : String :=
  "Error: Song '" ++ t ++ "' not found in the dataset."

/-- `get_recommendations(song_title, top_n=5)`, app.py lines 29–54: look the
title up in the index (missing → the not-found error string), enumerate and
sort row `idx` of the similarity matrix by score descending, take slice
`[1:top_n+1]`, and map the surviving positions back to titles. -/
def get_recommendations (titles : List String) (matrix : List (List ℚ))
    (song_title : String) (top_n : Int := 5) : Except String (List String) :=
  match titleIndex titles song_title with
  | none => .error (notFoundMessage song_title)
  | some idx =>
      let sim_scores := rankedScores matrix idx
      let sliced := pySlice1 sim_scores (top_n + 1)
      .ok (sliced.map (fun p => titles.getD p.1 ""))

/-! ## Mood classifier: `recommend_mood`, app.py lines 121–181 -/

/-- `WHERE valence > 0.7 AND energy > 0.6 AND danceability > 0.5` (line 133). -/
def happyPred (s : Song) : Bool :=
  decide (mkRat 7 10 < s.valence) && decide (mkRat 6 10 < s.energy) &&
    decide (mkRat 5 10 < s.danceability)

/-- `WHERE valence < 0.3 AND energy < 0.4 AND tempo < 100` (line 135). -/
def sadPred (s : Song) : Bool :=
  decide (s.valence < mkRat 3 10) && decide (s.energy < mkRat 4 10) &&
    decide (s.tempo < 100)

/-- `WHERE energy > 0.8 AND tempo > 120` (line 137). -/
def energeticPred (s : Song) : Bool :=
  decide (mkRat 8 10 < s.energy) && decide ((120:ℚ) < s.tempo)

/-- `WHERE energy < 0.3 AND tempo < 100 AND valence > 0.4` (line 139). -/
def calmPred (s : Song) : Bool :=
  decide (s.energy < mkRat 3 10) && decide (s.tempo < 100) &&
    decide (mkRat 4 10 < s.valence)

/-- `WHERE valence > 0.6 AND energy < 0.6 AND speechiness < 0.08` (line 141). -/
def romanticPred (s : Song) : Bool :=
  decide (mkRat 6 10 < s.valence) && decide (s.energy < mkRat 6 10) &&
    decide (s.speechiness < mkRat 8 100)

/-- `WHERE energy > 0.8 AND valence < 0.3 AND tempo > 110` (line 143). -/
def angryPred (s : Song) : Bool :=
  decide (mkRat 8 10 < s.energy) && decide (s.valence < mkRat 3 10) &&
    decide ((110:ℚ) < s.tempo)

/-- `WHERE valence > 0.5 AND energy < 0.5 AND tempo < 110` (line 145). -/
def nostalgicPred (s : Song) : Bool :=
  decide (mkRat 5 10 < s.valence) && decide (s.energy < mkRat 5 10) &&
    decide (s.tempo < 110)

/-- `WHERE speechiness < 0.05 AND energy < 0.3 AND liveness < 0.1` (line 147). -/
def focusedPred (s : Song) : Bool :=
  decide (s.speechiness < mkRat 5 100) && decide (s.energy < mkRat 3 10) &&
    decide (s.liveness < mkRat 1 10)

/-- `WHERE energy < 0.4 AND tempo < 110 AND liveness < 0.2` (line 149). -/
def chillPred (s : Song) : Bool :=
  decide (s.energy < mkRat 4 10) && decide (s.tempo < 110) &&
    decide (s.liveness < mkRat 2 10)

/-- `WHERE energy > 0.75 AND tempo > 120 AND danceability > 0.6` (line 151). -/
def workoutPred (s : Song) : Bool :=
  decide (mkRat 75 100 < s.energy) && decide ((120:ℚ) < s.tempo) &&
    decide (mkRat 6 10 < s.danceability)

/-- `WHERE energy > 0.7 AND danceability > 0.7 AND valence > 0.6` (line 153). -/
def partyPred (s : Song) : Bool :=
  decide (mkRat 7 10 < s.energy) && decide (mkRat 7 10 < s.danceability) &&
    decide (mkRat 6 10 < s.valence)

/-- The `if mood == ... / elif ... / else` chain of app.py lines 131–155,
resolving a mood label (case-sensitive string equality, as in Python) to its
SQL `WHERE` filter; `none` is the `Invalid mood provided.` branch. -/
def query_filter (mood : String) : Option (Song → Bool) :=
  if mood = "happy" then some happyPred
  else if mood = "sad" then some sadPred
  else if mood = "energetic" then some energeticPred
  else if mood = "calm" then some calmPred
  else if mood = "romantic" then some romanticPred
  else if mood = "angry" then some angryPred
  else if mood = "nostalgic" then some nostalgicPred
  else if mood = "focused" then some focusedPred
  else if mood = "chill" then some chillPred
  else if mood = "workout" then some workoutPred
  else if mood = "party" then some partyPred
  else none

/-- The eleven labels of the `if/elif` chain, in source order. -/
def moodLabels : List String :=
  ["happy", "sad", "energetic", "calm", "romantic", "angry",
   "nostalgic", "focused", "chill", "workout", "party"]

/-- Insertion step of a stable descending sort on `popularity`. -/
def insertPopDesc (p : Song) : List Song → List Song
  | [] => [p]
  | q :: qs => if p.popularity < q.popularity then q :: insertPopDesc p qs
               else p :: q :: qs

/-- `ORDER BY popularity DESC` over the filtered rows, read as a stable
descending sort (deterministic reading of SQLite's unspecified tie order,
keeping table order on equal popularity). -/
def sortPopDesc : List Song → List Song
  | [] => []
  | p :: ps => insertPopDesc p (sortPopDesc ps)

/-- The rows the query of app.py lines 163–169 selects for a recognized mood:
`WHERE` filter, `ORDER BY popularity DESC`, `LIMIT 5`; the `else` branch of
the mood chain returns the invalid-mood error (line 155). -/
def moodRows (songs : List Song) (mood : String) : Except String (List Song) :=
  match query_filter mood with
  | none => .error "Invalid mood provided."
  | some p => .ok ((sortPopDesc (songs.filter p)).take 5)

/-- The `SELECT name, artists, title` projection of each returned row. -/
structure SongProj where
  name : String
  artists : String
  title : String
  deriving DecidableEq

/-- `recommend_mood` endpoint result, app.py lines 121–178: the selected rows
projected to `{name, artists, title}` dicts. -/
def recommend_mood (songs : List Song) (mood : String) :
    Except String (List SongProj) :=
  (moodRows songs mood).map (List.map fun s => ⟨s.name, s.artists, s.title⟩)

/-! ## Trending aggregates: `get_trending`, app.py lines 81–118 -/

/-- Number of catalog rows whose `artists` string equals `a`
(`value_counts().loc[a]`, app.py line 103). -/
def artistCount (songs : List Song) (a : String) : Nat :=
  songs.countP (fun s => s.artists = a)

/-- The largest occurrence count of any `artists` value in the catalog. -/
def maxArtistCount (songs : List Song) : Nat :=
  (songs.map (fun s => artistCount songs s.artists)).foldr max 0

/-- The `artists` values attaining the maximal count, with multiplicity, in
catalog order: the candidates of `df_scaled['artists'].mode()`. -/
def modeCandidates (songs : List Song) : List String :=
  (songs.map Song.artists).filter (fun a => artistCount songs a = maxArtistCount songs)

/-- Strict lexicographic order on code-point lists: the comparison Python's
`<` performs on `str` (and pandas uses to sort `mode()` results). -/
def natListLt : List Nat → List Nat → Bool
  | [], [] => false
  | [], _ :: _ => true
  | _ :: _, [] => false
  | a :: as, b :: bs =>
      if a < b then true else if b < a then false else natListLt as bs

/-- A string as its list of Unicode code points. -/
def strKey (s : String) : List Nat := s.data.map Char.toNat

/-- `strLt a b`: Python's `a < b` on strings. -/
def strLt (a b : String) : Bool := natListLt (strKey a) (strKey b)

/-- Keep the smaller of an accumulator and the next string. -/
def minStep (m b : String) : String := if strLt b m then b else m

/-- Least string of a list under `strLt`. -/
def listMinString : List String → Option String
  | [] => none
  | a :: rest => some (rest.foldl minStep a)

/-- `df_scaled['artists'].mode()[0]` plus its `value_counts` count, app.py
lines 100–103: pandas `mode()` returns the most frequent values sorted
ascending, so `[0]` is the least such value; `none` models the exception on
an empty catalog (500 branch). -/
def most_frequent_artist (songs : List Song) : Option (String × Nat) :=
  match listMinString (modeCandidates songs) with
  | none => none
  | some a => some (a, artistCount songs a)

/-! ## Startup load, app.py lines 11–25 -/

/-- The module-level `try` block: read `api_data.csv`, load
`similarity_matrix.npy`, build the title index. `none` on either argument
models that file's `FileNotFoundError`, whose handler calls `exit()`; when
both artifacts load, serving state is built with no dimension check of any
kind. -/
def startup_load (catalog? : Option (List Song))
    (matrix? : Option (List (List ℚ))) : Option (List Song × List (List ℚ)) :=
  match catalog?, matrix? with
  | some c, some m => some (c, m)
  | none, _ => none
  | _, none => none

/-! ## Offline catalog build: `fix_database.py` -/

/-- A row of the original `datasetmusic.csv` (the fields the script reads). -/
structure RawSong where
  name : String
  artists : String
  valence : ℚ
  energy : ℚ
  danceability : ℚ
  tempo : ℚ
  speechiness : ℚ
  liveness : ℚ
  popularity : Int
  deriving DecidableEq

/-- `df.drop_duplicates(subset=['name','artists'], keep='first')`,
fix_database.py line 24: keep the first row for each `(name, artists)` pair. -/
def dropDuplicatesAux : List RawSong → List (String × String) → List RawSong
  | [], _ => []
  | r :: rs, seen =>
      if (r.name, r.artists) ∈ seen then dropDuplicatesAux rs seen
      else r :: dropDuplicatesAux rs ((r.name, r.artists) :: seen)

/-- Deduplication pass with an initially empty seen set. -/
def drop_duplicates (rows : List RawSong) : List RawSong :=
  dropDuplicatesAux rows []

/-- `popularity_threshold = 30`, fix_database.py line 27. -/
def popularity_threshold : Int := 30

/-- The filtered, titled rows written to the `songs` table,
fix_database.py lines 24–43: deduplicate, keep rows with
`popularity > popularity_threshold`, derive `title = name + " by " + artists`. -/
def build_songs_table (rows : List RawSong) : List Song :=
  ((drop_duplicates rows).filter
      (fun r => popularity_threshold < r.popularity)).map
    (fun r => { name := r.name, artists := r.artists,
                title := r.name ++ " by " ++ r.artists,
                valence := r.valence, energy := r.energy,
                danceability := r.danceability, tempo := r.tempo,
                speechiness := r.speechiness, liveness := r.liveness,
                popularity := r.popularity })

/-- The ranking order claimed for the sorted score list: scores are
non-increasing, and on equal scores the earlier catalog position comes
first. -/
def RankOrder (a b : Nat × ℚ) : Prop :=
  b.2 ≤ a.2 ∧ (a.2 = b.2 → a.1 < b.1)

/-- The consistency the spec asserts of the loaded artifacts: the similarity
matrix is square with dimension equal to the catalog's row count. -/
def SimilarityWF (titles : List String) (matrix : List (List ℚ)) : Prop :=
  matrix.length = titles.length ∧ ∀ row ∈ matrix, row.length = titles.length

/-- A three-song catalog's titles, used as a concrete test fixture. -/
def titles3 : List String := ["A by X", "B by Y", "C by Z"]

/-- A symmetric similarity matrix for `titles3` with maximal self-similarity
and pairwise-distinct off-diagonal scores. -/
def matrix3 : List (List ℚ) :=
  [[1, mkRat 1 2, mkRat 1 4],
   [mkRat 1 2, 1, mkRat 3 4],
   [mkRat 1 4, mkRat 3 4, 1]]

/-- A song matching the `energetic` thresholds, used as a test fixture. -/
def energeticSong : Song :=
  { name := "A", artists := "X", title := "A by X",
    valence := mkRat 9 10, energy := mkRat 9 10, danceability := mkRat 9 10,
    tempo := 130, speechiness := mkRat 1 100, liveness := mkRat 1 100,
    popularity := 50 }

/-- A catalog where the artists strings `"b"` and `"a"` tie at two rows each
and `"b"` occurs first, used as a concrete test fixture. -/
def demoTrendingCatalog : List Song :=
  [{ name := "s1", artists := "b", title := "s1 by b", valence := 0,
     energy := 0, danceability := 0, tempo := 0, speechiness := 0,
     liveness := 0, popularity := 50 },
   { name := "s2", artists := "b", title := "s2 by b", valence := 0,
     energy := 0, danceability := 0, tempo := 0, speechiness := 0,
     liveness := 0, popularity := 50 },
   { name := "s3", artists := "a", title := "s3 by a", valence := 0,
     energy := 0, danceability := 0, tempo := 0, speechiness := 0,
     liveness := 0, popularity := 50 },
   { name := "s4", artists := "a", title := "s4 by a", valence := 0,
     energy := 0, danceability := 0, tempo := 0, speechiness := 0,
     liveness := 0, popularity := 50 }]

/-- Raw rows for the offline build: a duplicate `(name, artists)` pair and a
row at the popularity threshold, used as a concrete test fixture. -/
def rawRowsDemo : List RawSong :=
  [{ name := "A", artists := "X", valence := 0, energy := 0,
     danceability := 0, tempo := 0, speechiness := 0, liveness := 0,
     popularity := 42 },
   { name := "A", artists := "X", valence := 0, energy := 0,
     danceability := 0, tempo := 0, speechiness := 0, liveness := 0,
     popularity := 99 },
   { name := "B", artists := "Y", valence := 0, energy := 0,
     danceability := 0, tempo := 0, speechiness := 0, liveness := 0,
     popularity := 30 }]

/-! ## Lemmas about the title index -/

theorem titleIndex_lt_length {l : List String} {t : String} {i : Nat}
    (h : titleIndex l t = some i) : i < l.length := by
  induction l generalizing i with
  | nil => simp [titleIndex] at h
  | cons u us ih =>
      by_cases hu : u = t
      · rw [titleIndex, if_pos hu] at h
        obtain rfl : (0 : Nat) = i := Option.some.inj h
        simp
      · rw [titleIndex, if_neg hu] at h
        rcases hj : titleIndex us t with _ | j
        · rw [hj] at h; simp at h
        · rw [hj] at h
          obtain rfl : j + 1 = i := Option.some.inj h
          have := ih hj
          simp only [List.length_cons]
          omega

theorem titleIndex_eq_none {l : List String} {t : String}
    (h : ∀ u ∈ l, u ≠ t) : titleIndex l t = none := by
  induction l with
  | nil => rfl
  | cons u us ih =>
      have hu : u ≠ t := h u (by simp)
      rw [titleIndex, if_neg hu, ih (fun v hv => h v (by simp [hv]))]
      rfl

/-! ## Lemmas about `enumerate` -/

theorem length_enumFrom (i : Nat) (l : List ℚ) :
    (enumFrom i l).length = l.length := by
  induction l generalizing i with
  | nil => rfl
  | cons x xs ih => simp [enumFrom, ih]

theorem enumFrom_fst_ge {i : Nat} {l : List ℚ} :
    ∀ q ∈ enumFrom i l, i ≤ q.1 := by
  induction l generalizing i with
  | nil => intro q hq; simp [enumFrom] at hq
  | cons x xs ih =>
      intro q hq
      simp only [enumFrom, List.mem_cons] at hq
      rcases hq with rfl | hq
      · exact Nat.le_refl i
      · exact Nat.le_of_succ_le (ih q hq)

theorem pairwise_fst_enumFrom (i : Nat) (l : List ℚ) :
    (enumFrom i l).Pairwise (fun a b => a.1 < b.1) := by
  induction l generalizing i with
  | nil => exact List.Pairwise.nil
  | cons x xs ih =>
      refine List.Pairwise.cons ?_ (ih (i + 1))
      intro q hq
      exact Nat.lt_of_lt_of_le (Nat.lt_succ_self i) (enumFrom_fst_ge q hq)

/-! ## Lemmas about the similarity sort -/

theorem insertDesc_perm (p : Nat × ℚ) (l : List (Nat × ℚ)) :
    List.Perm (insertDesc p l) (p :: l) := by
  induction l with
  | nil => exact List.Perm.refl _
  | cons q qs ih =>
      by_cases hpq : p.2 < q.2
      · simp only [insertDesc, if_pos hpq]
        exact List.Perm.trans (ih.cons q) (List.Perm.swap p q qs)
      · simp only [insertDesc, if_neg hpq]
        exact List.Perm.refl _

theorem sortDesc_perm (l : List (Nat × ℚ)) : List.Perm (sortDesc l) l := by
  induction l with
  | nil => exact List.Perm.refl _
  | cons p ps ih =>
      exact List.Perm.trans (insertDesc_perm p (sortDesc ps)) (ih.cons p)

theorem length_sortDesc (l : List (Nat × ℚ)) :
    (sortDesc l).length = l.length :=
  (sortDesc_perm l).length_eq

theorem mem_sortDesc {l : List (Nat × ℚ)} {q : Nat × ℚ} :
    q ∈ sortDesc l ↔ q ∈ l :=
  (sortDesc_perm l).mem_iff

theorem pairwise_insertDesc {p : Nat × ℚ} {l : List (Nat × ℚ)}
    (hl : l.Pairwise RankOrder) (hp : ∀ q ∈ l, p.1 < q.1) :
    (insertDesc p l).Pairwise RankOrder := by
  induction l with
  | nil => simp [insertDesc, List.Pairwise.nil]
  | cons q qs ih =>
      by_cases hpq : p.2 < q.2
      · simp only [insertDesc, if_pos hpq]
        refine List.Pairwise.cons ?_ (ih hl.tail (fun r hr => hp r (by simp [hr])))
        intro r hr
        have hr' := (insertDesc_perm p qs).mem_iff.mp hr
        rcases List.mem_cons.mp hr' with rfl | hr''
        · exact ⟨le_of_lt hpq, fun h => absurd h (ne_of_gt hpq)⟩
        · exact (List.pairwise_cons.mp hl).1 r hr''
      · simp only [insertDesc, if_neg hpq]
        have hq2 : q.2 ≤ p.2 := le_of_not_lt hpq
        refine List.Pairwise.cons ?_ hl
        intro r hr
        rcases List.mem_cons.mp hr with rfl | hr'
        · exact ⟨hq2, fun _ => hp r (by simp)⟩
        · have hqr := (List.pairwise_cons.mp hl).1 r hr'
          refine ⟨le_trans hqr.1 hq2, fun hpr => hp r (by simp [hr'])⟩

theorem pairwise_sortDesc {l : List (Nat × ℚ)}
    (hl : l.Pairwise (fun a b => a.1 < b.1)) :
    (sortDesc l).Pairwise RankOrder := by
  induction l with
  | nil => exact List.Pairwise.nil
  | cons p ps ih =>
      refine pairwise_insertDesc (ih hl.tail) ?_
      intro q hq
      exact (List.pairwise_cons.mp hl).1 q (mem_sortDesc.mp hq)

/-! ## Lemmas about the slice -/

theorem length_pySlice1 {α : Type} (l : List α) (e : Int) (he : 0 ≤ e) :
    (pySlice1 l e).length = min e.toNat l.length - 1 := by
  simp only [pySlice1]
  rw [if_neg (by omega)]
  simp only [List.length_drop, List.length_take]
  omega

theorem pySlice1_one {α : Type} (l : List α) : pySlice1 l 1 = [] := by
  simp only [pySlice1]
  rw [if_neg (by omega)]
  apply List.drop_eq_nil_of_le
  simp only [List.length_take]
  omega

/-! ## Lemmas about the popularity sort -/

theorem insertPopDesc_perm (p : Song) (l : List Song) :
    List.Perm (insertPopDesc p l) (p :: l) := by
  induction l with
  | nil => exact List.Perm.refl _
  | cons q qs ih =>
      by_cases hpq : p.popularity < q.popularity
      · simp only [insertPopDesc, if_pos hpq]
        exact List.Perm.trans (ih.cons q) (List.Perm.swap p q qs)
      · simp only [insertPopDesc, if_neg hpq]
        exact List.Perm.refl _

theorem sortPopDesc_perm (l : List Song) : List.Perm (sortPopDesc l) l := by
  induction l with
  | nil => exact List.Perm.refl _
  | cons p ps ih =>
      exact List.Perm.trans (insertPopDesc_perm p (sortPopDesc ps)) (ih.cons p)

theorem mem_sortPopDesc {l : List Song} {s : Song} :
    s ∈ sortPopDesc l ↔ s ∈ l :=
  (sortPopDesc_perm l).mem_iff

/-- A member of the selected mood rows passes the resolved filter. -/
theorem moodRows_filter {songs : List Song} {mood : String}
    {rows : List Song} {r : Song} {p : Song → Bool}
    (hq : query_filter mood = some p)
    (hrows : moodRows songs mood = .ok rows) (hr : r ∈ rows) : p r = true := by
  rw [moodRows, hq] at hrows
  obtain rfl := (Except.ok.inj hrows).symm
  have h1 : r ∈ sortPopDesc (songs.filter p) := List.take_subset 5 _ hr
  exact (List.mem_filter.mp (mem_sortPopDesc.mp h1)).2

/-! ## Lemmas about the lexicographic string order -/

theorem natListLt_irrefl (a : List Nat) : natListLt a a = false := by
  induction a with
  | nil => rfl
  | cons x as ih => simp [natListLt, ih]

theorem natListLt_trans {a b c : List Nat} (hab : natListLt a b = true)
    (hbc : natListLt b c = true) : natListLt a c = true := by
  induction a generalizing b c with
  | nil =>
      cases c with
      | nil =>
          cases b with
          | nil => simp [natListLt] at hab
          | cons y bs => simp [natListLt] at hbc
      | cons z cs => rfl
  | cons x as ih =>
      cases b with
      | nil => simp [natListLt] at hab
      | cons y bs =>
          cases c with
          | nil => simp [natListLt] at hbc
          | cons z cs =>
              simp only [natListLt] at hab hbc ⊢
              by_cases hxy : x < y
              · simp only [if_pos hxy] at hab
                by_cases hyz : y < z
                · rw [if_pos (by omega : x < z)]
                · by_cases hzy : z < y
                  · simp [if_neg hyz, if_pos hzy] at hbc
                  · have hyez : y = z := by omega
                    subst hyez
                    rw [if_pos hxy]
              · by_cases hyx : y < x
                · simp [if_neg hxy, if_pos hyx] at hab
                · have hxey : x = y := by omega
                  subst hxey
                  simp only [if_neg hxy, if_neg hyx] at hab
                  by_cases hxz : x < z
                  · rw [if_pos hxz]
                  · by_cases hzx : z < x
                    · simp [if_neg hxz, if_pos hzx] at hbc
                    · simp only [if_neg hxz, if_neg hzx] at hbc ⊢
                      exact ih hab hbc

theorem natListLt_eq_of_not_lt {a b : List Nat} (hab : natListLt a b = false)
    (hba : natListLt b a = false) : a = b := by
  induction a generalizing b with
  | nil =>
      cases b with
      | nil => rfl
      | cons y bs => simp [natListLt] at hab
  | cons x as ih =>
      cases b with
      | nil => simp [natListLt] at hba
      | cons y bs =>
          simp only [natListLt] at hab hba
          by_cases hxy : x < y
          · simp [if_pos hxy] at hab
          · by_cases hyx : y < x
            · simp [if_pos hyx] at hba
            · have hxey : x = y := by omega
              subst hxey
              simp only [if_neg hxy, if_neg hyx] at hab hba
              rw [ih hab hba]

theorem strLt_irrefl (s : String) : strLt s s = false :=
  natListLt_irrefl _

theorem strLt_trans {a b c : String} (h1 : strLt a b = true)
    (h2 : strLt b c = true) : strLt a c = true :=
  natListLt_trans h1 h2

theorem strKey_eq_of_not_lt {a b : String} (h1 : strLt a b = false)
    (h2 : strLt b a = false) : strKey a = strKey b :=
  natListLt_eq_of_not_lt h1 h2

/-- `a ≤ c` (no strict drop from `c` to `a`) and `c < r` give `a < r`. -/
theorem strLt_of_ge_of_lt {a c r : String} (h1 : strLt c a = false)
    (h2 : strLt c r = true) : strLt a r = true := by
  by_cases h3 : strLt a c = true
  · exact strLt_trans h3 h2
  · have hf : strLt a c = false := by simpa using h3
    have hk := strKey_eq_of_not_lt hf h1
    rw [strLt, hk]
    exact h2

/-! ## Lemmas about the running minimum -/

theorem foldlMin_mem (a : String) (rest : List String) :
    rest.foldl minStep a ∈ a :: rest := by
  induction rest generalizing a with
  | nil => simp
  | cons c cs ih =>
      simp only [List.foldl_cons]
      have h := ih (minStep a c)
      rcases List.mem_cons.mp h with h' | h'
      · rw [h', minStep]
        by_cases hc : strLt c a = true
        · simp [hc]
        · have hf : strLt c a = false := by simpa using hc
          simp [hf]
      · simp [h']

theorem foldlMin_not_lt (a : String) (rest : List String) :
    ∀ b ∈ a :: rest, strLt b (rest.foldl minStep a) = false := by
  induction rest generalizing a with
  | nil =>
      intro b hb
      have hba : b = a := by simpa using hb
      subst hba
      exact strLt_irrefl b
  | cons c cs ih =>
      intro b hb
      simp only [List.foldl_cons]
      have hmem := ih (minStep a c)
      cases hv : strLt b (cs.foldl minStep (minStep a c)) with
      | false => rfl
      | true =>
          exfalso
          rcases List.mem_cons.mp hb with rfl | hb'
          · by_cases h : strLt c b = true
            · have hstep := hmem c (by
                have e : minStep b c = c := by rw [minStep]; simp [h]
                rw [e]
                simp)
              have htr := strLt_trans h hv
              cases htr.symm.trans hstep
            · have hf : strLt c b = false := by simpa using h
              have hstep := hmem b (by
                have e : minStep b c = b := by rw [minStep]; simp [hf]
                rw [e]
                simp)
              cases hv.symm.trans hstep
          · rcases List.mem_cons.mp hb' with rfl | hb''
            · by_cases h : strLt b a = true
              · have hstep := hmem b (by
                  have e : minStep a b = b := by rw [minStep]; simp [h]
                  rw [e]
                  simp)
                cases hv.symm.trans hstep
              · have hf : strLt b a = false := by simpa using h
                have hstep := hmem a (by
                  have e : minStep a b = a := by rw [minStep]; simp [hf]
                  rw [e]
                  simp)
                have htr := strLt_of_ge_of_lt hf hv
                cases htr.symm.trans hstep
            · have hstep := hmem b (by simp [hb''])
              cases hv.symm.trans hstep

/-! ## Lemmas about the artist aggregate -/

theorem le_foldr_max {l : List Nat} : ∀ x ∈ l, x ≤ l.foldr max 0 := by
  induction l with
  | nil => intro x hx; cases hx
  | cons y ys ih =>
      intro x hx
      rcases List.mem_cons.mp hx with rfl | hx'
      · exact le_max_left _ _
      · exact le_trans (ih x hx') (le_max_right _ _)

theorem foldr_max_mem {l : List Nat} (h : l.foldr max 0 ≠ 0) :
    l.foldr max 0 ∈ l := by
  induction l with
  | nil => simp at h
  | cons y ys ih =>
      simp only [List.foldr] at h ⊢
      rcases le_or_lt (ys.foldr max 0) y with hle | hlt
      · rw [max_eq_left hle]
        simp
      · rw [max_eq_right (le_of_lt hlt)] at h ⊢
        exact List.mem_cons_of_mem y (ih h)

theorem artistCount_le_max {songs : List Song} :
    ∀ b ∈ songs.map Song.artists, artistCount songs b ≤ maxArtistCount songs := by
  intro b hb
  obtain ⟨s, hs, rfl⟩ := List.mem_map.mp hb
  exact le_foldr_max _ (List.mem_map.mpr ⟨s, hs, rfl⟩)

theorem modeCandidates_ne_nil {songs : List Song} (h : songs ≠ []) :
    modeCandidates songs ≠ [] := by
  obtain ⟨s, ss, rfl⟩ := List.exists_cons_of_ne_nil h
  have hone : 1 ≤ artistCount (s :: ss) s.artists := by
    simp [artistCount, List.countP_cons]
  have hle : artistCount (s :: ss) s.artists ≤ maxArtistCount (s :: ss) :=
    artistCount_le_max _ (List.mem_map.mpr ⟨s, by simp, rfl⟩)
  have hmax : maxArtistCount (s :: ss) ≠ 0 := by omega
  have hmem : maxArtistCount (s :: ss) ∈
      (s :: ss).map (fun t => artistCount (s :: ss) t.artists) :=
    foldr_max_mem hmax
  obtain ⟨t, ht, hteq⟩ := List.mem_map.mp hmem
  have : t.artists ∈ modeCandidates (s :: ss) := by
    rw [modeCandidates]
    exact List.mem_filter.mpr ⟨List.mem_map.mpr ⟨t, ht, rfl⟩, by simp [hteq]⟩
  exact List.ne_nil_of_mem this

theorem length_rankedScores (matrix : List (List ℚ)) (idx : Nat) :
    (rankedScores matrix idx).length = (matrix.getD idx []).length := by
  rw [rankedScores, length_sortDesc, enumerate, length_enumFrom]

theorem rowLength_of_wf {titles : List String} {matrix : List (List ℚ)}
    {idx : Nat} (hwf : SimilarityWF titles matrix) (hidx : idx < titles.length) :
    (matrix.getD idx []).length = titles.length := by
  have hidx' : idx < matrix.length := by rw [hwf.1]; exact hidx
  rw [List.getD_eq_getElem matrix [] hidx']
  exact hwf.2 _ (List.getElem_mem hidx')

theorem query_filter_eq_none_iff {mood : String} :
    query_filter mood = none ↔ mood ∉ moodLabels := by
  constructor
  · intro h hmem
    rw [moodLabels] at hmem
    simp only [List.mem_cons, List.not_mem_nil, or_false] at hmem
    rcases hmem with rfl | rfl | rfl | rfl | rfl | rfl | rfl | rfl | rfl |
      rfl | rfl <;> simp [query_filter] at h
  · intro hmem
    rw [moodLabels] at hmem
    simp only [List.mem_cons, List.not_mem_nil, or_false, not_or] at hmem
    obtain ⟨n1, n2, n3, n4, n5, n6, n7, n8, n9, n10, n11⟩ := hmem
    rw [query_filter, if_neg n1, if_neg n2, if_neg n3, if_neg n4, if_neg n5,
      if_neg n6, if_neg n7, if_neg n8, if_neg n9, if_neg n10, if_neg n11]

/-! ## The claims -/

/-- C1: the claim says `Recommend` excludes the queried song's position by
identity even when other rows tie with the maximal self-similarity score.
The code only drops the first entry of the sorted list
(`sim_scores[1:top_n+1]`), so when position 0 ties with the query's
self-similarity, the queried title itself is returned: on the two-title
catalog with the all-ones similarity matrix, querying `"B by X"` returns
`["B by X"]`. -/
theorem c1_self_included_on_tie :
    get_recommendations ["A by X", "B by X"] [[1, 1], [1, 1]] "B by X" 5 =
        .ok ["B by X"] ∧
      "B by X" ∈ ["B by X"] :=
  ⟨by rfl, by simp⟩

/-- C2: for a title present in the index, a well-formed similarity matrix and
positive `topN`, the returned list has length exactly
`min topN (CatalogSize - 1)`. -/
theorem c2_recommend_length (titles : List String) (matrix : List (List ℚ))
    (t : String) (top_n : Int) (idx : Nat)
    (hidx : titleIndex titles t = some idx)
    (hwf : SimilarityWF titles matrix) (hpos : 1 ≤ top_n) :
    ∃ l, get_recommendations titles matrix t top_n = .ok l ∧
      l.length = min top_n.toNat (titles.length - 1) := by
  have hn := titleIndex_lt_length hidx
  have hrow := rowLength_of_wf hwf hn
  simp only [get_recommendations, hidx]
  refine ⟨_, rfl, ?_⟩
  rw [List.length_map, length_pySlice1 _ _ (by omega), length_rankedScores, hrow]
  omega

/-- C2 witness: on the three-song fixture with `topN = 5` the result has
length `min 5 2 = 2`. -/
theorem c2_witness :
    ∃ l, get_recommendations titles3 matrix3 "A by X" 5 = .ok l ∧
      l.length = min (5 : Int).toNat (titles3.length - 1) :=
  c2_recommend_length titles3 matrix3 "A by X" 5 0 (by decide)
    ⟨by decide, by decide⟩ (by decide)

/-- C3: for a title present in the index, the `(position, score)` ranking the
engine sorts is non-increasing in score, and among equal scores the lower
catalog position comes first. -/
theorem c3_ranking_sorted (titles : List String) (matrix : List (List ℚ))
    (t : String) (idx : Nat) (_hidx : titleIndex titles t = some idx) :
    (rankedScores matrix idx).Pairwise RankOrder :=
  pairwise_sortDesc (pairwise_fst_enumFrom 0 _)

/-- C3 witness: the ranking for row 0 of the three-song fixture. -/
theorem c3_witness : (rankedScores matrix3 0).Pairwise RankOrder :=
  c3_ranking_sorted titles3 matrix3 "A by X" 0 (by decide)

/-- C4: every row selected for a recognized mood satisfies that mood's
conjunction of strict attribute-threshold inequalities. -/
theorem c4_mood_rows_satisfy (songs : List Song) (mood : String)
    (rows : List Song) (r : Song)
    (hrows : moodRows songs mood = .ok rows) (hr : r ∈ rows) :
    (mood = "happy" → (7:ℚ)/10 < r.valence ∧ (6:ℚ)/10 < r.energy ∧
      (5:ℚ)/10 < r.danceability) ∧
    (mood = "sad" → r.valence < (3:ℚ)/10 ∧ r.energy < (4:ℚ)/10 ∧
      r.tempo < 100) ∧
    (mood = "energetic" → (8:ℚ)/10 < r.energy ∧ (120:ℚ) < r.tempo) ∧
    (mood = "calm" → r.energy < (3:ℚ)/10 ∧ r.tempo < 100 ∧
      (4:ℚ)/10 < r.valence) ∧
    (mood = "romantic" → (6:ℚ)/10 < r.valence ∧ r.energy < (6:ℚ)/10 ∧
      r.speechiness < (8:ℚ)/100) ∧
    (mood = "angry" → (8:ℚ)/10 < r.energy ∧ r.valence < (3:ℚ)/10 ∧
      (110:ℚ) < r.tempo) ∧
    (mood = "nostalgic" → (5:ℚ)/10 < r.valence ∧ r.energy < (5:ℚ)/10 ∧
      r.tempo < 110) ∧
    (mood = "focused" → r.speechiness < (5:ℚ)/100 ∧ r.energy < (3:ℚ)/10 ∧
      r.liveness < (1:ℚ)/10) ∧
    (mood = "chill" → r.energy < (4:ℚ)/10 ∧ r.tempo < 110 ∧
      r.liveness < (2:ℚ)/10) ∧
    (mood = "workout" → (75:ℚ)/100 < r.energy ∧ (120:ℚ) < r.tempo ∧
      (6:ℚ)/10 < r.danceability) ∧
    (mood = "party" → (7:ℚ)/10 < r.energy ∧ (7:ℚ)/10 < r.danceability ∧
      (6:ℚ)/10 < r.valence) := by
  refine ⟨?_, ?_, ?_, ?_, ?_, ?_, ?_, ?_, ?_, ?_, ?_⟩ <;> intro heq <;> subst heq
  · have hp := moodRows_filter
      (show query_filter "happy" = some happyPred by rfl) hrows hr
    simp only [happyPred, Bool.and_eq_true, decide_eq_true_eq,
      Rat.mkRat_eq_div] at hp
    push_cast at hp
    tauto
  · have hp := moodRows_filter
      (show query_filter "sad" = some sadPred by rfl) hrows hr
    simp only [sadPred, Bool.and_eq_true, decide_eq_true_eq,
      Rat.mkRat_eq_div] at hp
    push_cast at hp
    tauto
  · have hp := moodRows_filter
      (show query_filter "energetic" = some energeticPred by rfl) hrows hr
    simp only [energeticPred, Bool.and_eq_true, decide_eq_true_eq,
      Rat.mkRat_eq_div] at hp
    push_cast at hp
    tauto
  · have hp := moodRows_filter
      (show query_filter "calm" = some calmPred by rfl) hrows hr
    simp only [calmPred, Bool.and_eq_true, decide_eq_true_eq,
      Rat.mkRat_eq_div] at hp
    push_cast at hp
    tauto
  · have hp := moodRows_filter
      (show query_filter "romantic" = some romanticPred by rfl) hrows hr
    simp only [romanticPred, Bool.and_eq_true, decide_eq_true_eq,
      Rat.mkRat_eq_div] at hp
    push_cast at hp
    tauto
  · have hp := moodRows_filter
      (show query_filter "angry" = some angryPred by rfl) hrows hr
    simp only [angryPred, Bool.and_eq_true, decide_eq_true_eq,
      Rat.mkRat_eq_div] at hp
    push_cast at hp
    tauto
  · have hp := moodRows_filter
      (show query_filter "nostalgic" = some nostalgicPred by rfl) hrows hr
    simp only [nostalgicPred, Bool.and_eq_true, decide_eq_true_eq,
      Rat.mkRat_eq_div] at hp
    push_cast at hp
    tauto
  · have hp := moodRows_filter
      (show query_filter "focused" = some focusedPred by rfl) hrows hr
    simp only [focusedPred, Bool.and_eq_true, decide_eq_true_eq,
      Rat.mkRat_eq_div] at hp
    push_cast at hp
    tauto
  · have hp := moodRows_filter
      (show query_filter "chill" = some chillPred by rfl) hrows hr
    simp only [chillPred, Bool.and_eq_true, decide_eq_true_eq,
      Rat.mkRat_eq_div] at hp
    push_cast at hp
    tauto
  · have hp := moodRows_filter
      (show query_filter "workout" = some workoutPred by rfl) hrows hr
    simp only [workoutPred, Bool.and_eq_true, decide_eq_true_eq,
      Rat.mkRat_eq_div] at hp
    push_cast at hp
    tauto
  · have hp := moodRows_filter
      (show query_filter "party" = some partyPred by rfl) hrows hr
    simp only [partyPred, Bool.and_eq_true, decide_eq_true_eq,
      Rat.mkRat_eq_div] at hp
    push_cast at hp
    tauto

/-- C4 witness: the energetic fixture song is selected for `"energetic"` and
satisfies `energy > 0.8` and `tempo > 120`. -/
theorem c4_witness :
    (8:ℚ)/10 < energeticSong.energy ∧ (120:ℚ) < energeticSong.tempo :=
  (c4_mood_rows_satisfy [energeticSong] "energetic" [energeticSong]
    energeticSong (by rfl) (by simp)).2.2.1 rfl

/-- C5: `recommend_mood` fails with `Invalid mood provided.` exactly for mood
strings outside the eleven case-sensitive labels, and that error is distinct
from every not-found error of `get_recommendations`. -/
theorem c5_invalid_mood (songs : List Song) (mood : String) :
    (recommend_mood songs mood = .error "Invalid mood provided." ↔
      mood ∉ moodLabels) ∧
    (∀ t, notFoundMessage t ≠ "Invalid mood provided.") := by
  constructor
  · rcases hq : query_filter mood with _ | p
    · simp only [recommend_mood, moodRows, hq, Except.map]
      constructor
      · intro _
        exact query_filter_eq_none_iff.mp hq
      · intro _
        trivial
    · simp only [recommend_mood, moodRows, hq, Except.map]
      constructor
      · intro h
        cases h
      · intro hmem
        have h0 := query_filter_eq_none_iff.mpr hmem
        rw [h0] at hq
        cases hq
  · intro t h
    have hlen := congrArg String.length h
    rw [notFoundMessage, String.length_append, String.length_append] at hlen
    have h1 : ("Error: Song '" : String).length = 13 := rfl
    have h2 : ("' not found in the dataset." : String).length = 27 := rfl
    have h3 : ("Invalid mood provided." : String).length = 22 := rfl
    omega

/-- C5 witness: `"Happy"` (capitalized) is not one of the labels, so the
classifier rejects it. -/
theorem c5_witness :
    recommend_mood [] "Happy" = .error "Invalid mood provided." ↔
      "Happy" ∉ moodLabels :=
  (c5_invalid_mood [] "Happy").1

/-- C6: a title absent from the index makes `get_recommendations` return the
not-found error carrying the offending title, and no result list. -/
theorem c6_not_found (titles : List String) (matrix : List (List ℚ))
    (t : String) (top_n : Int) (habs : ∀ u ∈ titles, u ≠ t) :
    get_recommendations titles matrix t top_n = .error (notFoundMessage t) ∧
    notFoundMessage t =
      "Error: Song '" ++ t ++ "' not found in the dataset." := by
  refine ⟨?_, rfl⟩
  simp only [get_recommendations, titleIndex_eq_none habs]

/-- C6 witness: `"Unknown Song"` is not in the three-song fixture. -/
theorem c6_witness :
    get_recommendations titles3 matrix3 "Unknown Song" 5 =
        .error (notFoundMessage "Unknown Song") ∧
    notFoundMessage "Unknown Song" =
      "Error: Song '" ++ "Unknown Song" ++ "' not found in the dataset." :=
  c6_not_found titles3 matrix3 "Unknown Song" 5 (by decide)

/-- C7 counterexample: the claim says a non-positive `topN` fails with an
`InvalidArgument` condition; the code performs no validation, and `topN = 0`
on a found title returns the empty result list, not an error. -/
theorem c7_counterexample :
    get_recommendations ["A by X"] [[1]] "A by X" 0 = .ok [] := by rfl

/-- C7 amended: `topN` defaults to 5, and a non-positive `topN` is not
validated: for a found title, every non-positive `topN` still returns a
result list instead of failing, and `topN = 0` returns the empty list. -/
theorem c7_amended (titles : List String) (matrix : List (List ℚ))
    (t : String) (idx : Nat) (top_n : Int)
    (hidx : titleIndex titles t = some idx) (_hnp : top_n ≤ 0) :
    get_recommendations titles matrix t = get_recommendations titles matrix t 5 ∧
    (∃ l, get_recommendations titles matrix t top_n = .ok l) ∧
    get_recommendations titles matrix t 0 = .ok [] := by
  refine ⟨rfl, ?_, ?_⟩
  · simp only [get_recommendations, hidx]
    exact ⟨_, rfl⟩
  · simp only [get_recommendations, hidx]
    rw [show ((0:ℤ) + 1) = 1 from rfl, pySlice1_one]
    rfl

/-- C7 witness: the default, `topN = -2` and `topN = 0` behavior on the
three-song fixture. -/
theorem c7_witness :
    (get_recommendations titles3 matrix3 "A by X" =
      get_recommendations titles3 matrix3 "A by X" 5) ∧
    (∃ l, get_recommendations titles3 matrix3 "A by X" (-2) = .ok l) ∧
    get_recommendations titles3 matrix3 "A by X" 0 = .ok [] :=
  c7_amended titles3 matrix3 "A by X" 0 (-2) (by decide) (by decide)

/-- C8 counterexample: the claim says startup validates that the matrix is
square with dimension equal to the catalog's row count; the code performs no
such check — a 2-row matrix loads with a 1-row catalog. -/
theorem c8_counterexample :
    startup_load (some [energeticSong]) (some [[0], [0]]) =
        some ([energeticSong], [[0], [0]]) ∧
    ([[(0:ℚ)], [0]] : List (List ℚ)).length ≠ [energeticSong].length :=
  ⟨rfl, by decide⟩

/-- C8 amended: startup fails fast exactly when an artifact is absent; when
both artifacts load, serving state is built with no dimension validation. -/
theorem c8_amended (c? : Option (List Song)) (m? : Option (List (List ℚ))) :
    (startup_load c? m?).isSome = (c?.isSome && m?.isSome) := by
  cases c? <;> cases m? <;> rfl

/-- C9 counterexample: the claim says ties on the maximal artist count are
broken by earliest first occurrence; in the fixture `"b"` and `"a"` both
occur twice and `"b"` occurs first, yet the code reports `"a"` (pandas
`mode()` sorts the modes). -/
theorem c9_counterexample :
    most_frequent_artist demoTrendingCatalog = some ("a", 2) ∧
    artistCount demoTrendingCatalog "b" = 2 ∧
    artistCount demoTrendingCatalog "a" = 2 ∧
    List.indexOf "b" (demoTrendingCatalog.map Song.artists) <
      List.indexOf "a" (demoTrendingCatalog.map Song.artists) := by decide

/-- C9 amended: `most_frequent_artist` reports an artists value of maximal
occurrence count together with that count, breaking ties by the smallest
value in code-point order (pandas `mode()` sorts), not by first occurrence. -/
theorem c9_amended (songs : List Song) (hne : songs ≠ []) :
    ∃ a, most_frequent_artist songs = some (a, artistCount songs a) ∧
      a ∈ songs.map Song.artists ∧
      (∀ b ∈ songs.map Song.artists,
        artistCount songs b ≤ artistCount songs a) ∧
      (∀ b ∈ songs.map Song.artists,
        artistCount songs b = artistCount songs a → strLt b a = false) := by
  obtain ⟨x, xs, hx⟩ := List.exists_cons_of_ne_nil (modeCandidates_ne_nil hne)
  have hr : xs.foldl minStep x ∈ modeCandidates songs := by
    rw [hx]
    exact foldlMin_mem x xs
  have hrc : artistCount songs (xs.foldl minStep x) = maxArtistCount songs := by
    simpa using (List.mem_filter.mp hr).2
  refine ⟨xs.foldl minStep x, ?_, ?_, ?_, ?_⟩
  · rw [most_frequent_artist, hx]
    rfl
  · exact (List.mem_filter.mp hr).1
  · intro b hb
    rw [hrc]
    exact artistCount_le_max b hb
  · intro b hb hbc
    have hbmax : artistCount songs b = maxArtistCount songs := by
      rw [hbc, hrc]
    have hbcand : b ∈ modeCandidates songs := by
      rw [modeCandidates]
      exact List.mem_filter.mpr ⟨hb, by simp [hbmax]⟩
    rw [hx] at hbcand
    exact foldlMin_not_lt x xs b hbcand

/-- C9 witness: the amended statement on the tie fixture. -/
theorem c9_witness :
    ∃ a, most_frequent_artist demoTrendingCatalog =
        some (a, artistCount demoTrendingCatalog a) ∧
      a ∈ demoTrendingCatalog.map Song.artists ∧
      (∀ b ∈ demoTrendingCatalog.map Song.artists,
        artistCount demoTrendingCatalog b ≤ artistCount demoTrendingCatalog a) ∧
      (∀ b ∈ demoTrendingCatalog.map Song.artists,
        artistCount demoTrendingCatalog b = artistCount demoTrendingCatalog a →
          strLt b a = false) :=
  c9_amended demoTrendingCatalog (by decide)

/-- C10: every row the offline build writes to the songs table has
popularity strictly greater than 30. -/
theorem c10_popularity_threshold (rows : List RawSong) :
    ∀ s ∈ build_songs_table rows, (30 : Int) < s.popularity := by
  intro s hs
  rw [build_songs_table] at hs
  obtain ⟨r, hr, rfl⟩ := List.mem_map.mp hs
  have h2 := (List.mem_filter.mp hr).2
  simpa [popularity_threshold] using h2

/-- C10 witness: the surviving row of the raw fixture has popularity 42. -/
theorem c10_witness :
    (30 : Int) <
      (Song.popularity
        { name := "A", artists := "X", title := "A by X", valence := 0,
          energy := 0, danceability := 0, tempo := 0, speechiness := 0,
          liveness := 0, popularity := 42 }) :=
  c10_popularity_threshold rawRowsDemo _ (by decide)

end TuneCentral
